import Mathlib

/-! Verification of the authoritative Sora data-channel manager
(src/server/manager.py): the planar vehicle integrator, the ctrl-frame
intake, and the state/status publisher.

Modelling conventions:
* Python floats are modelled as real numbers; JSON decimal literals as
  rationals embedded into the reals.
* `float("inf")` (the control age before any command arrives) is modelled
  as `none : Option ℝ`; the code only ever tests it with `math.isinf` and
  with comparisons that are true of infinity.
* `math.isclose(t, 0.0, abs_tol=1e-3)` is `|t| ≤ 1e-3` (the relative
  tolerance term `1e-9 * |t|` never enlarges the test for `|t| < 1e6`,
  and for larger `t` both readings are false).
* Exceptions that the Python code can raise (AttributeError from
  `cmd.get` on a non-dict, TypeError/ValueError from `float(...)`)
  are modelled with `Except PyError`.
-/

namespace Manager

noncomputable section

/-! ## Numeric constants (manager.py lines 28-32 and VehicleModel 64-71) -/

def CTRL_HOLD_SEC : ℝ := 0.2
def CTRL_DAMP_SEC : ℝ := 1.0
def STATE_RATE_HZ : ℝ := 30.0
def PHYSICS_RATE_HZ : ℝ := 60.0
def HEARTBEAT_SEC : ℝ := 1.0
def MAX_SPEED : ℝ := 20.0
def MAX_ACCEL : ℝ := 9.0
def BRAKE_DECEL : ℝ := 14.0
def COAST_DECEL : ℝ := 2.0
def IDLE_DECEL : ℝ := 1.5
def YAW_RATE_MAX : ℝ := 2.5
def YAW_SLEW : ℝ := 6.0
def ANGULAR_DAMP : ℝ := 4.0

/-- clamp(value, low, high) — manager.py line 35. -/
def clamp (value low high : ℝ) : ℝ :=
  if value < low then low else if high < value then high else value

/-- math.copysign(mag, x): the magnitude of mag with the sign of x
(x = 0.0 carries a positive sign bit). Only used under guards that force
x away from 0. -/
def copysign (mag x : ℝ) : ℝ := if x < 0 then -|mag| else |mag|

/-- Loop variant for the first loop of wrap_angle: how many times
`while rad > pi: rad -= tau` still has to run. -/
def downFuel (rad : ℝ) : ℕ :=
  if Real.pi < rad then ⌊(rad - Real.pi) / (2 * Real.pi)⌋₊ + 1 else 0

/-- Loop variant for the second loop of wrap_angle: how many times
`while rad <= -pi: rad += tau` still has to run. -/
def upFuel (rad : ℝ) : ℕ :=
  if rad ≤ -Real.pi then ⌊(-Real.pi - rad) / (2 * Real.pi)⌋₊ + 1 else 0

/-- First loop of wrap_angle (manager.py lines 40-41):
`while rad > math.pi: rad -= math.tau`. -/
def wrapDown (rad : ℝ) : ℝ :=
  if h : Real.pi < rad then wrapDown (rad - 2 * Real.pi) else rad
termination_by downFuel rad
decreasing_by
  have h2pi : (0 : ℝ) < 2 * Real.pi := by positivity
  simp only [downFuel, if_pos h]
  by_cases h2 : Real.pi < rad - 2 * Real.pi
  · rw [if_pos h2]
    have hx1 : (1 : ℝ) ≤ (rad - Real.pi) / (2 * Real.pi) := by
      rw [le_div_iff₀ h2pi]; linarith
    have heq : (rad - 2 * Real.pi - Real.pi) / (2 * Real.pi)
        = (rad - Real.pi) / (2 * Real.pi) - 1 := by
      field_simp
      ring
    have hfl : ⌊(rad - Real.pi) / (2 * Real.pi) - 1⌋₊
        = ⌊(rad - Real.pi) / (2 * Real.pi)⌋₊ - 1 := by
      simpa using Nat.floor_sub_nat ((rad - Real.pi) / (2 * Real.pi)) 1
    have h1f : 1 ≤ ⌊(rad - Real.pi) / (2 * Real.pi)⌋₊ := Nat.le_floor (by push_cast; linarith)
    rw [heq, hfl]
    omega
  · rw [if_neg h2]
    omega

/-- Second loop of wrap_angle (manager.py lines 42-43):
`while rad <= -math.pi: rad += math.tau`. -/
def wrapUp (rad : ℝ) : ℝ :=
  if h : rad ≤ -Real.pi then wrapUp (rad + 2 * Real.pi) else rad
termination_by upFuel rad
decreasing_by
  have h2pi : (0 : ℝ) < 2 * Real.pi := by positivity
  simp only [upFuel, if_pos h]
  by_cases h2 : rad + 2 * Real.pi ≤ -Real.pi
  · rw [if_pos h2]
    have hx1 : (1 : ℝ) ≤ (-Real.pi - rad) / (2 * Real.pi) := by
      rw [le_div_iff₀ h2pi]; linarith
    have heq : (-Real.pi - (rad + 2 * Real.pi)) / (2 * Real.pi)
        = (-Real.pi - rad) / (2 * Real.pi) - 1 := by
      field_simp
      ring
    have hfl : ⌊(-Real.pi - rad) / (2 * Real.pi) - 1⌋₊
        = ⌊(-Real.pi - rad) / (2 * Real.pi)⌋₊ - 1 := by
      simpa using Nat.floor_sub_nat ((-Real.pi - rad) / (2 * Real.pi)) 1
    have h1f : 1 ≤ ⌊(-Real.pi - rad) / (2 * Real.pi)⌋₊ := Nat.le_floor (by push_cast; linarith)
    rw [heq, hfl]
    omega
  · rw [if_neg h2]
    omega

/-- wrap_angle(rad) — manager.py lines 39-44. -/
def wrap_angle (rad : ℝ) : ℝ := wrapUp (wrapDown rad)

/-! ## ControlSnapshot and VehicleModel (manager.py lines 47-163) -/

/-- ControlSnapshot — manager.py lines 47-58. -/
structure ControlSnapshot where
  seq : ℤ
  throttle : ℝ
  steer : ℝ
  brake : ℝ
  mode : String
  received_at : ℝ
  client_timestamp_ms : Option ℤ

/-- ControlSnapshot.age — manager.py line 57. -/
def ControlSnapshot.age (c : ControlSnapshot) (now : ℝ) : ℝ := now - c.received_at

/-- VehicleModel state. `last_ctrl_age = none` stands for float("inf"). -/
structure VehicleModel where
  x : ℝ
  y : ℝ
  z : ℝ
  yaw : ℝ
  vx : ℝ
  wz : ℝ
  last_dt : ℝ
  last_ctrl_age : Option ℝ
  estop_active : Bool

/-- VehicleModel.__init__ — manager.py lines 73-82. -/
def VehicleModel.init : VehicleModel :=
  { x := 0, y := 0, z := 0, yaw := 0, vx := 0, wz := 0,
    last_dt := 1 / PHYSICS_RATE_HZ, last_ctrl_age := none, estop_active := false }

/-- Effective (throttle, steer, brake) of a present command — the staleness
damping of manager.py lines 89-98. -/
def effective (c : ControlSnapshot) (now : ℝ) : ℝ × ℝ × ℝ :=
  let age := c.age now
  if age ≤ CTRL_HOLD_SEC then (c.throttle, c.steer, c.brake)
  else
    let decay := clamp ((age - CTRL_HOLD_SEC) / CTRL_DAMP_SEC) 0 1
    (c.throttle * (1 - decay), c.steer * (1 - decay), max c.brake decay)

/-- Longitudinal block of VehicleModel.step — manager.py lines 105-122:
accelerate with the throttle, add coast / brake / idle decelerations under
their guards, integrate, snap below epsilon, clamp to MAX_SPEED. -/
def stepVx (hasCtrl estop : Bool) (throttle brake vx dt : ℝ) : ℝ :=
  let a0 := throttle * MAX_ACCEL
  let a1 := if |throttle| ≤ 1e-3 then
      (if 1e-3 < |vx| then a0 - copysign COAST_DECEL vx else 0)
    else a0
  let a2 := if 0 < brake ∧ 1e-3 < |vx| then a1 - copysign (BRAKE_DECEL * brake) vx else a1
  let p := if hasCtrl = false ∧ estop = false then
      (if 1e-3 < |vx| then (a2 - copysign IDLE_DECEL vx, vx) else (a2, 0))
    else (a2, vx)
  let v1 := p.2 + p.1 * dt
  let v2 := if |v1| < 1e-3 then 0 else v1
  clamp v2 (-MAX_SPEED) MAX_SPEED

/-- Rotational block of VehicleModel.step — manager.py lines 124-133:
slew toward steer * YAW_RATE_MAX when a command object is present,
otherwise damp multiplicatively; snap below epsilon. -/
def stepWz (hasCtrl : Bool) (steer wz dt : ℝ) : ℝ :=
  let w := if hasCtrl then
      wz + clamp (steer * YAW_RATE_MAX - wz) (-(YAW_SLEW * dt)) (YAW_SLEW * dt)
    else wz * (1 - clamp (ANGULAR_DAMP * dt) 0 1)
  if |w| < 1e-3 then 0 else w

/-- VehicleModel.step — manager.py lines 84-140. The estop override (lines
101-103) zeroes throttle and forces brake to 1 but leaves steer untouched. -/
def VehicleModel.step (m : VehicleModel) (ctrl : Option ControlSnapshot) (dt now : ℝ) :
    VehicleModel :=
  let tsb := match ctrl with
    | none => ((0 : ℝ), (0 : ℝ), (0 : ℝ))
    | some c => effective c now
  let age : Option ℝ := match ctrl with
    | none => none
    | some c => some (c.age now)
  let throttle := if m.estop_active then 0 else tsb.1
  let steer := tsb.2.1
  let brake := if m.estop_active then 1 else tsb.2.2
  let vx := stepVx ctrl.isSome m.estop_active throttle brake m.vx dt
  let wz := stepWz ctrl.isSome steer m.wz dt
  let yaw_now := wrap_angle (m.yaw + wz * dt)
  { m with
    x := m.x + vx * Real.sin yaw_now * dt
    z := m.z + vx * Real.cos yaw_now * dt
    yaw := yaw_now
    vx := vx
    wz := wz
    last_dt := dt
    last_ctrl_age := age }

/-- VehicleModel.estop — manager.py lines 153-156. -/
def VehicleModel.estop (m : VehicleModel) : VehicleModel :=
  { m with estop_active := true, vx := 0, wz := 0 }

/-- VehicleModel.clear_estop — manager.py lines 158-159. -/
def VehicleModel.clear_estop (m : VehicleModel) : VehicleModel :=
  { m with estop_active := false }

/-- Inputs of one physics-loop iteration (manager.py lines 421-439): the
coalesced latest accepted command, if any, and the measured dt and now. -/
structure StepInput where
  ctrl : Option ControlSnapshot
  dt : ℝ
  now : ℝ

/-- A run of the physics loop: fold VehicleModel.step over a list of tick
inputs. -/
def runSteps (m : VehicleModel) (inputs : List StepInput) : VehicleModel :=
  inputs.foldl (fun s i => s.step i.ctrl i.dt i.now) m

/-! ## JSON values and the Python operations the intake performs on them -/

/-- A decoded JSON value as json.loads produces it: integer literals become
Python ints, other numeric literals floats (held here as their exact
rational value), and objects become dicts. -/
inductive Json where
  | null
  | bool (b : Bool)
  | int (n : ℤ)
  | num (q : ℚ)
  | str (s : String)
  | arr (elems : List Json)
  | obj (fields : List (String × Json))

/-- Exceptions the intake code can raise. -/
inductive PyError where
  | attributeError
  | typeError
  | valueError
deriving DecidableEq

/-- dict lookup by key (first match; json.loads yields unique keys). -/
def lookupField : List (String × Json) → String → Option Json
  | [], _ => none
  | (k, v) :: rest, key => if k = key then some v else lookupField rest key

/-- Python's x.get(key): None when the key is absent; AttributeError when x
is not a dict. -/
def Json.getOpt : Json → String → Except PyError (Option Json)
  | .obj fs, key => .ok (lookupField fs key)
  | _, _ => .error .attributeError

/-- Python's x.get(key, default): AttributeError when x is not a dict. -/
def Json.getD : Json → String → Json → Except PyError Json
  | .obj fs, key, d => .ok ((lookupField fs key).getD d)
  | _, _, _ => .error .attributeError

/-- Python truthiness of a decoded JSON value. -/
def pythonTruthy : Json → Bool
  | .null => false
  | .bool b => b
  | .int n => n ≠ 0
  | .num q => q ≠ 0
  | .str s => s ≠ ""
  | .arr elems => ¬ elems.isEmpty
  | .obj fields => ¬ fields.isEmpty

/-- isinstance(v, int): holds of Python ints and of bools (bool is a
subclass of int; True counts as 1). -/
def pyInt? : Json → Option ℤ
  | .int n => some n
  | .bool b => some (if b then 1 else 0)
  | _ => none

/-- isinstance(v, (int, float)). -/
def pyNum? : Json → Option ℝ
  | .int n => some (n : ℝ)
  | .num q => some (q : ℝ)
  | .bool b => some (if b then 1 else 0)
  | _ => none

/-- float(v): TypeError on None, lists and dicts. On strings float() parses
decimal text and raises ValueError otherwise; frames are modelled with their
numeric fields as JSON numbers, so a string field here is treated as the
non-numeric case. -/
def pyFloat : Json → Except PyError ℝ
  | .int n => .ok (n : ℝ)
  | .num q => .ok (q : ℝ)
  | .bool b => .ok (if b then 1 else 0)
  | .str _ => .error .valueError
  | .null => .error .typeError
  | .arr _ => .error .typeError
  | .obj _ => .error .typeError

/-- str(v), used only for the opaque mode field (never interpreted); the
rendering of non-string values is abbreviated. -/
def pyStr : Json → String
  | .str s => s
  | .int n => toString n
  | .bool b => if b then "True" else "False"
  | .null => "None"
  | .num _ => "<float>"
  | .arr _ => "<list>"
  | .obj _ => "<dict>"

/-- int(x) on a Python float: truncation toward zero. -/
def truncPy (x : ℝ) : ℤ := if 0 ≤ x then ⌊x⌋ else ⌈x⌉

/-! ## ManagerNode state and message handlers (manager.py lines 166-419) -/

/-- The ManagerNode fields the message handlers and the state publisher
touch (manager.py lines 192-209). Transport/threading handles are out of
scope. -/
structure ManagerNode where
  vehicle : VehicleModel
  last_ctrl : Option ControlSnapshot
  last_ctrl_latency_ms : Option ℝ
  last_ctrl_recv_wall : Option ℝ
  last_hb_from_ui : Option ℝ
  estop_triggered : Bool
  state_seq : ℕ
  ctrl_recv_count : ℕ
  ctrl_drop_count : ℕ
  ctrl_label : String
  state_label : String

/-- A fresh node with the default channel labels (manager.py lines 581-582,
192-209). -/
def ManagerNode.init : ManagerNode :=
  { vehicle := VehicleModel.init, last_ctrl := none, last_ctrl_latency_ms := none,
    last_ctrl_recv_wall := none, last_hb_from_ui := none, estop_triggered := false,
    state_seq := 0, ctrl_recv_count := 0, ctrl_drop_count := 0,
    ctrl_label := "#ctrl", state_label := "#state" }

/-- clamp(float(cmd.get(key, 0.0)), low, high) — manager.py lines 383-385.
Except.bind propagates the exception, as Python's evaluation order does. -/
def cmdNum (cmd : Json) (key : String) (low high : ℝ) : Except PyError ℝ :=
  (cmd.getD key (Json.num 0)).bind fun v =>
    (pyFloat v).bind fun x => .ok (clamp x low high)

/-- The accepted-frame update of _handle_ctrl (manager.py lines 394-407),
performed under the ctrl lock. -/
def ManagerNode.acceptCtrl (n : ManagerNode) (seq : ℤ) (throttle steer brake : ℝ)
    (mode : String) (now_mono now_wall : ℝ) (client_ts : Option ℝ) : ManagerNode :=
  { n with
    last_ctrl := some
      { seq := seq, throttle := throttle, steer := steer, brake := brake,
        mode := mode, received_at := now_mono,
        client_timestamp_ms := client_ts.map truncPy },
    ctrl_recv_count := n.ctrl_recv_count + 1,
    last_ctrl_recv_wall := some now_wall,
    last_ctrl_latency_ms := match client_ts with
      | some t => some (now_wall * 1000 - t)
      | none => n.last_ctrl_latency_ms }

/-- cmd = msg.get("cmd") or {} — manager.py line 382: a missing or falsy
cmd value is replaced by the empty dict. -/
def cmdOf (cmdJ : Option Json) : Json :=
  match cmdJ with
  | some v => if pythonTruthy v then v else Json.obj []
  | none => Json.obj []

/-- _handle_ctrl — manager.py lines 377-409. now_mono models
time.perf_counter(), now_wall models time.time(). -/
def ManagerNode.handle_ctrl (n : ManagerNode) (msg : Json) (now_mono now_wall : ℝ) :
    Except PyError ManagerNode :=
  (msg.getOpt "seq").bind fun seqJ =>
    match seqJ.bind pyInt? with
    | none => .ok n
    | some seq =>
      (msg.getOpt "cmd").bind fun cmdJ =>
        let cmd := cmdOf cmdJ
        (cmdNum cmd "throttle" (-1) 1).bind fun throttle =>
          (cmdNum cmd "steer" (-1) 1).bind fun steer =>
            (cmdNum cmd "brake" 0 1).bind fun brake =>
              (cmd.getD "mode" (Json.str "arcade")).bind fun modeJ =>
                (msg.getOpt "t").bind fun tJ =>
                  let client_ts : Option ℝ := tJ.bind pyNum?
                  match n.last_ctrl with
                  | some c =>
                    if seq ≤ c.seq then
                      .ok { n with ctrl_drop_count := n.ctrl_drop_count + 1 }
                    else
                      .ok (n.acceptCtrl seq throttle steer brake (pyStr modeJ)
                        now_mono now_wall client_ts)
                  | none =>
                    .ok (n.acceptCtrl seq throttle steer brake (pyStr modeJ)
                      now_mono now_wall client_ts)

/-- _handle_heartbeat — manager.py lines 411-412. -/
def ManagerNode.handle_heartbeat (n : ManagerNode) (now_wall : ℝ) : ManagerNode :=
  { n with last_hb_from_ui := some now_wall }

/-- _handle_estop — manager.py lines 414-418. -/
def ManagerNode.handle_estop (n : ManagerNode) : ManagerNode :=
  { n with vehicle := n.vehicle.estop, estop_triggered := true }

/-- trigger_estop — manager.py lines 557-561. -/
def ManagerNode.trigger_estop (n : ManagerNode) : ManagerNode :=
  { n with vehicle := n.vehicle.estop, estop_triggered := true }

/-- _on_message — manager.py lines 349-366. `data = none` stands for bytes
that fail UTF-8 JSON decoding (the caught json.JSONDecodeError path);
otherwise the decoded payload is given. -/
def ManagerNode.on_message (n : ManagerNode) (label : String) (data : Option Json)
    (now_mono now_wall : ℝ) : Except PyError ManagerNode :=
  match data with
  | none => .ok n
  | some payload =>
    (payload.getOpt "type").bind fun ty =>
      match ty with
      | some (Json.str t) =>
        if t = "ctrl" ∧ label = n.ctrl_label then n.handle_ctrl payload now_mono now_wall
        else if t = "hb" then .ok (n.handle_heartbeat now_wall)
        else if t = "estop" then .ok n.handle_estop
        else .ok n
      | _ => .ok n

/-! ## Status policy and state payload (manager.py lines 483-527) -/

/-- The status message strings; the timeout/stale constructors carry the
int(ctrl_age * 1000) the f-string interpolates. -/
inductive StatusMsg where
  | empty
  | estopMsg
  | waitingCtrl
  | ctrlTimeout (ms : ℤ)
  | ctrlStale (ms : ℤ)
  | uiHeartbeatLost
deriving DecidableEq

/-- The status object of a state frame; `estop` records whether the
optional "estop": true field is present. -/
structure Status where
  ok : Bool
  msg : StatusMsg
  hb_age : Option ℝ
  ctrl_latency_ms : Option ℝ
  estop : Bool

/-- The estop / waiting / timeout / stale part of the status computation:
manager.py lines 489-499 (status_ok / status_msg before the heartbeat
check). `ctrl_age = none` stands for float("inf") (math.isinf). -/
def statusCore (estop_active : Bool) (ctrl_age : Option ℝ) : Bool × StatusMsg :=
  let ok0 : Bool := !estop_active
  let msg0 := if estop_active then StatusMsg.estopMsg else StatusMsg.empty
  if estop_active then (ok0, msg0)
  else
    match ctrl_age with
    | none => (false, StatusMsg.waitingCtrl)
    | some a =>
      if CTRL_HOLD_SEC + CTRL_DAMP_SEC < a then
        (false, StatusMsg.ctrlTimeout (truncPy (a * 1000)))
      else if (0.4 : ℝ) < a then (ok0, StatusMsg.ctrlStale (truncPy (a * 1000)))
      else (ok0, msg0)

/-- The status computation of _build_state_payload — manager.py lines
489-522: the core rules of lines 489-499, then the heartbeat check of lines
501-506 overwriting ok / msg when the (truthy) operator heartbeat is older
than 3 s. -/
def build_status (estop_active : Bool) (ctrl_age : Option ℝ) (last_hb : Option ℝ)
    (now_wall : ℝ) (latency : Option ℝ) (estop_triggered : Bool) : Status :=
  let om1 := statusCore estop_active ctrl_age
  let hbTruthy : Bool := match last_hb with
    | some tm => tm ≠ 0
    | none => false
  let hb_age : Option ℝ := if hbTruthy then some (now_wall - last_hb.getD 0) else none
  let om2 : Bool × StatusMsg :=
    match hb_age with
    | some ha => if 3 < ha then (false, StatusMsg.uiHeartbeatLost) else om1
    | none => om1
  { ok := om2.1, msg := om2.2, hb_age := hb_age, ctrl_latency_ms := latency,
    estop := estop_triggered }

/-- One outbound state frame (manager.py lines 508-523). -/
structure StatePayload where
  seq : ℕ
  t : ℤ
  pose_x : ℝ
  pose_y : ℝ
  pose_z : ℝ
  pose_yaw : ℝ
  vel_vx : ℝ
  vel_wz : ℝ
  sim_dt : ℝ
  status : Status

/-- _build_state_payload — manager.py lines 483-527, including the
_next_state_seq increment; returns the frame and the updated node. -/
def ManagerNode.build_state_payload (n : ManagerNode) (now_wall : ℝ) :
    StatePayload × ManagerNode :=
  let v := n.vehicle
  let sq := (n.state_seq + 1) % 2 ^ 31
  ({ seq := sq
     t := truncPy (now_wall * 1000)
     pose_x := v.x, pose_y := v.y, pose_z := v.z, pose_yaw := v.yaw
     vel_vx := v.vx, vel_wz := v.wz
     sim_dt := v.last_dt
     status := build_status v.estop_active v.last_ctrl_age n.last_hb_from_ui
       now_wall n.last_ctrl_latency_ms n.estop_triggered },
   { n with state_seq := sq })

/-! ## Concrete frames, commands and states used as test inputs -/

/-- A fresh full-steer command (steer = 1), as stored after an accepted
ctrl frame with cmd {steer: 1}. -/
def steerCmd : ControlSnapshot :=
  { seq := 0, throttle := 0, steer := 1, brake := 0, mode := "arcade",
    received_at := 0, client_timestamp_ms := none }

/-- A neutral command received at t = 0, used at now = 1.3 s when its age
exceeds CTRL_HOLD_SEC + CTRL_DAMP_SEC. -/
def staleCmd : ControlSnapshot :=
  { seq := 1, throttle := 0, steer := 0, brake := 0, mode := "arcade",
    received_at := 0, client_timestamp_ms := none }

/-- A vehicle cruising at 10 m/s. -/
def cruising : VehicleModel := { VehicleModel.init with vx := 10 }

/-- A ctrl frame whose seq is the negative integer -1. -/
def ctrlMsgNegSeq : Json :=
  Json.obj [("type", Json.str "ctrl"), ("seq", Json.int (-1))]

/-- A ctrl frame whose seq is a string, so isinstance(seq, int) fails. -/
def ctrlMsgStrSeq : Json :=
  Json.obj [("type", Json.str "ctrl"), ("seq", Json.str "x")]

/-- A ctrl frame with seq 3 and no cmd object. -/
def ctrlMsgSeq3 : Json :=
  Json.obj [("type", Json.str "ctrl"), ("seq", Json.int 3)]

/-- A ctrl frame whose cmd is the (truthy) string "hi", not a dict:
cmd.get then raises AttributeError. -/
def ctrlMsgBadCmd : Json :=
  Json.obj [("type", Json.str "ctrl"), ("seq", Json.int 1), ("cmd", Json.str "hi")]

/-- A ctrl frame with seq 7 and an out-of-range throttle of 5. -/
def ctrlMsgBigThrottle : Json :=
  Json.obj [("type", Json.str "ctrl"), ("seq", Json.int 7),
    ("cmd", Json.obj [("throttle", Json.int 5)])]

/-- The command already accepted with seq 5. -/
def cmdSeq5 : ControlSnapshot :=
  { seq := 5, throttle := 0, steer := 0, brake := 0, mode := "arcade",
    received_at := 0, client_timestamp_ms := none }

/-- A node that has already accepted cmdSeq5. -/
def nodeSeq5 : ManagerNode := { ManagerNode.init with last_ctrl := some cmdSeq5 }

/-- The snapshot stored for ctrlMsgBigThrottle: throttle clamped to 1. -/
def bigSnapshot : ControlSnapshot :=
  { seq := 7, throttle := 1, steer := 0, brake := 0, mode := "arcade",
    received_at := 0, client_timestamp_ms := none }

/-- A half-steer fresh command, used as a witness tick input. -/
def halfSteerCmd : ControlSnapshot :=
  { seq := 2, throttle := 0.5, steer := 0.5, brake := 0, mode := "arcade",
    received_at := 0, client_timestamp_ms := none }

/-- A command with fields inside the intake clamp ranges, as every stored
ControlSnapshot is. -/
def Clamped (c : ControlSnapshot) : Prop :=
  |c.throttle| ≤ 1 ∧ |c.steer| ≤ 1 ∧ 0 ≤ c.brake ∧ c.brake ≤ 1

/-- The kinematic bounds of VehicleState (spec section 3). -/
def VehInv (m : VehicleModel) : Prop :=
  m.vx ∈ Set.Icc (-MAX_SPEED) MAX_SPEED ∧ |m.wz| ≤ YAW_RATE_MAX ∧
    m.yaw ∈ Set.Ioc (-Real.pi) Real.pi

/-- The at-rest state of C9: nothing has ever moved. -/
def AtRest (m : VehicleModel) : Prop :=
  m.vx = 0 ∧ m.wz = 0 ∧ m.x = 0 ∧ m.z = 0 ∧ m.yaw = 0 ∧ m.estop_active = false

end

/-! ## Helper lemmas -/

theorem exOk_bind {α β : Type} (a : α) (f : α → Except PyError β) :
    (Except.ok a).bind f = f a := rfl

theorem exError_bind {α β : Type} (e : PyError) (f : α → Except PyError β) :
    (Except.error e : Except PyError α).bind f = Except.error e := rfl

theorem clamp_mem_Icc {low high : ℝ} (v : ℝ) (h : low ≤ high) :
    clamp v low high ∈ Set.Icc low high := by
  simp only [Set.mem_Icc, clamp]
  split_ifs with h1 h2 <;> constructor <;> linarith

theorem clamp_eq_of_mem {low high v : ℝ} (h1 : low ≤ v) (h2 : v ≤ high) :
    clamp v low high = v := by
  simp only [clamp]
  rw [if_neg (not_lt.mpr h1), if_neg (not_lt.mpr h2)]

/-- Moving from a toward b by a slew-clamped delta stays in any interval
[-m, m] that holds both endpoints. -/
theorem add_clamp_abs_le {a b s m : ℝ} (ha : |a| ≤ m) (hb : |b| ≤ m) (hs : 0 ≤ s) :
    |a + clamp (b - a) (-s) s| ≤ m := by
  rw [abs_le] at *
  simp only [clamp]
  split_ifs <;> constructor <;> linarith

theorem wrapDown_le_pi (rad : ℝ) : wrapDown rad ≤ Real.pi := by
  induction rad using wrapDown.induct with
  | case1 rad h ih => rw [wrapDown, dif_pos h]; exact ih
  | case2 rad h => rw [wrapDown, dif_neg h]; exact le_of_not_lt h

theorem wrapDown_eq_of_le {rad : ℝ} (h : rad ≤ Real.pi) : wrapDown rad = rad := by
  rw [wrapDown, dif_neg (not_lt.mpr h)]

theorem wrapUp_gt_neg_pi (rad : ℝ) : -Real.pi < wrapUp rad := by
  induction rad using wrapUp.induct with
  | case1 rad h ih => rw [wrapUp, dif_pos h]; exact ih
  | case2 rad h => rw [wrapUp, dif_neg h]; exact lt_of_not_le h

theorem wrapUp_le_pi : ∀ rad : ℝ, rad ≤ Real.pi → wrapUp rad ≤ Real.pi := by
  intro rad
  induction rad using wrapUp.induct with
  | case1 rad h ih =>
    intro _
    rw [wrapUp, dif_pos h]
    exact ih (by linarith [Real.pi_pos])
  | case2 rad h =>
    intro hle
    rw [wrapUp, dif_neg h]
    exact hle

theorem wrap_angle_mem_Ioc (rad : ℝ) : wrap_angle rad ∈ Set.Ioc (-Real.pi) Real.pi :=
  ⟨wrapUp_gt_neg_pi _, wrapUp_le_pi _ (wrapDown_le_pi rad)⟩

theorem wrap_angle_eq_of_mem {rad : ℝ} (h1 : -Real.pi < rad) (h2 : rad ≤ Real.pi) :
    wrap_angle rad = rad := by
  rw [wrap_angle, wrapDown_eq_of_le h2, wrapUp, dif_neg (not_le.mpr h1)]

theorem wrap_angle_zero : wrap_angle 0 = 0 :=
  wrap_angle_eq_of_mem (by linarith [Real.pi_pos]) (le_of_lt Real.pi_pos)

/-! ## Lemmas about one physics step -/

theorem stepVx_mem_Icc (hasCtrl estop : Bool) (throttle brake vx dt : ℝ) :
    stepVx hasCtrl estop throttle brake vx dt ∈ Set.Icc (-MAX_SPEED) MAX_SPEED := by
  simp only [stepVx]
  exact clamp_mem_Icc _ (by norm_num [MAX_SPEED])

theorem stepWz_abs_le (hasCtrl : Bool) {steer wz dt : ℝ} (hw : |wz| ≤ YAW_RATE_MAX)
    (hs : |steer| ≤ 1) (hdt : 0 ≤ dt) : |stepWz hasCtrl steer wz dt| ≤ YAW_RATE_MAX := by
  have hY : (0 : ℝ) ≤ YAW_RATE_MAX := by norm_num [YAW_RATE_MAX]
  cases hasCtrl with
  | false =>
    simp only [stepWz, Bool.false_eq_true, if_false]
    have hcl := @clamp_mem_Icc 0 1 (ANGULAR_DAMP * dt) (by norm_num)
    rw [Set.mem_Icc] at hcl
    split_ifs
    · simpa using hY
    · rw [abs_mul]
      have h1 : |1 - clamp (ANGULAR_DAMP * dt) 0 1| ≤ 1 :=
        abs_le.mpr ⟨by linarith [hcl.1, hcl.2], by linarith [hcl.1, hcl.2]⟩
      calc |wz| * |1 - clamp (ANGULAR_DAMP * dt) 0 1| ≤ YAW_RATE_MAX * 1 :=
            mul_le_mul hw h1 (abs_nonneg _) hY
        _ = YAW_RATE_MAX := mul_one _
  | true =>
    simp only [stepWz, if_true]
    have htar : |steer * YAW_RATE_MAX| ≤ YAW_RATE_MAX := by
      rw [abs_mul]
      calc |steer| * |YAW_RATE_MAX| ≤ 1 * |YAW_RATE_MAX| :=
            mul_le_mul_of_nonneg_right hs (abs_nonneg _)
        _ = YAW_RATE_MAX := by rw [one_mul, abs_of_nonneg hY]
    have hslew : (0 : ℝ) ≤ YAW_SLEW * dt := mul_nonneg (by norm_num [YAW_SLEW]) hdt
    have hstep := add_clamp_abs_le hw htar hslew
    split_ifs
    · simpa using hY
    · exact hstep

theorem effective_steer_abs_le (c : ControlSnapshot) (now : ℝ) (hs : |c.steer| ≤ 1) :
    |(effective c now).2.1| ≤ 1 := by
  simp only [effective]
  split_ifs
  · exact hs
  · have hd := @clamp_mem_Icc 0 1
      ((c.age now - CTRL_HOLD_SEC) / CTRL_DAMP_SEC) (by norm_num)
    rw [Set.mem_Icc] at hd
    simp only
    rw [abs_mul]
    have h1 : |1 - clamp ((c.age now - CTRL_HOLD_SEC) / CTRL_DAMP_SEC) 0 1| ≤ 1 :=
      abs_le.mpr ⟨by linarith [hd.1, hd.2], by linarith [hd.1, hd.2]⟩
    exact mul_le_one₀ hs (abs_nonneg _) h1

theorem step_preserves_VehInv (m : VehicleModel) (ctrl : Option ControlSnapshot)
    (dt now : ℝ) (hm : VehInv m) (hdt : 0 ≤ dt)
    (hc : ∀ c, ctrl = some c → |c.steer| ≤ 1) : VehInv (m.step ctrl dt now) := by
  obtain ⟨hvx, hwz, hyaw⟩ := hm
  cases ctrl with
  | none =>
    refine ⟨?_, ?_, ?_⟩
    · simpa [VehicleModel.step] using
        stepVx_mem_Icc false m.estop_active (if m.estop_active then 0 else 0)
          (if m.estop_active then 1 else 0) m.vx dt
    · simpa [VehicleModel.step] using stepWz_abs_le false hwz (by norm_num) hdt
    · simpa [VehicleModel.step] using wrap_angle_mem_Ioc (m.yaw + stepWz false 0 m.wz dt * dt)
  | some c =>
    have hsteer := effective_steer_abs_le c now (hc c rfl)
    refine ⟨?_, ?_, ?_⟩
    · simpa [VehicleModel.step] using
        stepVx_mem_Icc true m.estop_active (if m.estop_active then 0 else (effective c now).1)
          (if m.estop_active then 1 else (effective c now).2.2) m.vx dt
    · simpa [VehicleModel.step] using stepWz_abs_le true hwz hsteer hdt
    · simpa [VehicleModel.step] using
        wrap_angle_mem_Ioc (m.yaw + stepWz true (effective c now).2.1 m.wz dt * dt)

theorem runSteps_cons (m : VehicleModel) (i : StepInput) (rest : List StepInput) :
    runSteps m (i :: rest) = runSteps (m.step i.ctrl i.dt i.now) rest := rfl

theorem runSteps_VehInv (inputs : List StepInput) (m : VehicleModel) (hm : VehInv m)
    (h : ∀ i ∈ inputs, (∀ c, i.ctrl = some c → |c.steer| ≤ 1) ∧ 0 ≤ i.dt) :
    VehInv (runSteps m inputs) := by
  induction inputs generalizing m with
  | nil => exact hm
  | cons i rest ih =>
    rw [runSteps_cons]
    have hi := h i (List.mem_cons_self i rest)
    exact ih (m.step i.ctrl i.dt i.now)
      (step_preserves_VehInv m i.ctrl i.dt i.now hm hi.2 hi.1)
      (fun j hj => h j (List.mem_cons_of_mem i hj))

theorem VehInv_init : VehInv VehicleModel.init := by
  refine ⟨?_, ?_, ?_⟩
  · simp [VehicleModel.init, Set.mem_Icc]
    norm_num [MAX_SPEED]
  · simp [VehicleModel.init]
    norm_num [YAW_RATE_MAX]
  · simp [VehicleModel.init, Set.mem_Ioc]
    exact ⟨by linarith [Real.pi_pos], le_of_lt Real.pi_pos⟩

theorem step_none_AtRest (m : VehicleModel) (dt now : ℝ) (hm : AtRest m) :
    AtRest (m.step none dt now) := by
  obtain ⟨hvx, hwz, hx, hz, hyaw, hes⟩ := hm
  have h1 : stepVx false false 0 0 0 dt = 0 := by
    norm_num [stepVx, copysign, clamp, MAX_SPEED]
  have h2 : stepWz false 0 0 dt = 0 := by norm_num [stepWz, clamp]
  unfold AtRest
  simp [VehicleModel.step, hes, hvx, hwz, hx, hz, hyaw, h1, h2, wrap_angle_zero]

theorem runSteps_AtRest (inputs : List StepInput) (m : VehicleModel) (hm : AtRest m)
    (h : ∀ i ∈ inputs, i.ctrl = none) : AtRest (runSteps m inputs) := by
  induction inputs generalizing m with
  | nil => exact hm
  | cons i rest ih =>
    rw [runSteps_cons]
    have hi := h i (List.mem_cons_self i rest)
    rw [hi]
    exact ih (m.step none i.dt i.now) (step_none_AtRest m i.dt i.now hm)
      (fun j hj => h j (List.mem_cons_of_mem i hj))

/-! ## The claims -/

/-- C10: for every real input rad, wrap_angle terminates (it is a total
function, each loop iteration moving rad by 2π toward the target interval)
and returns a value in (-π, π]; an input already in (-π, π] is returned
unchanged. -/
theorem wrap_angle_spec (rad : ℝ) :
    wrap_angle rad ∈ Set.Ioc (-Real.pi) Real.pi ∧
      (rad ∈ Set.Ioc (-Real.pi) Real.pi → wrap_angle rad = rad) :=
  ⟨wrap_angle_mem_Ioc rad, fun h => wrap_angle_eq_of_mem h.1 h.2⟩

/-- C8: after every run of physics steps from the initial vehicle state, for
every sequence of (possibly absent) clamped commands and positive dt values,
vx stays in [-20, 20], |wz| ≤ 2.5 and yaw stays in (-π, π]; hence every
state frame built from the resulting vehicle reports vel.vx in [-20, 20],
|vel.wz| ≤ 2.5 and pose.yaw in (-π, π]. -/
theorem state_bounds_invariant (inputs : List StepInput)
    (h : ∀ i ∈ inputs, (∀ c, i.ctrl = some c → Clamped c) ∧ 0 < i.dt) :
    ((runSteps VehicleModel.init inputs).vx ∈ Set.Icc (-20 : ℝ) 20 ∧
      |(runSteps VehicleModel.init inputs).wz| ≤ 2.5 ∧
      (runSteps VehicleModel.init inputs).yaw ∈ Set.Ioc (-Real.pi) Real.pi) ∧
    ∀ (n : ManagerNode) (now : ℝ), n.vehicle = runSteps VehicleModel.init inputs →
      (n.build_state_payload now).1.vel_vx ∈ Set.Icc (-20 : ℝ) 20 ∧
      |(n.build_state_payload now).1.vel_wz| ≤ 2.5 ∧
      (n.build_state_payload now).1.pose_yaw ∈ Set.Ioc (-Real.pi) Real.pi := by
  have hinv := runSteps_VehInv inputs VehicleModel.init VehInv_init
    (fun i hi => ⟨fun c hc => ((h i hi).1 c hc).2.1, le_of_lt (h i hi).2⟩)
  obtain ⟨h1, h2, h3⟩ := hinv
  have hms : MAX_SPEED = (20 : ℝ) := by norm_num [MAX_SPEED]
  have hyr : YAW_RATE_MAX = (2.5 : ℝ) := rfl
  rw [hms] at h1
  rw [hyr] at h2
  refine ⟨⟨h1, h2, h3⟩, ?_⟩
  intro n now hveh
  simp only [ManagerNode.build_state_payload]
  rw [hveh]
  exact ⟨h1, h2, h3⟩

/-- C8 witness: a concrete one-tick run with a clamped half-steer command
keeps vx inside [-20, 20]. -/
theorem state_bounds_invariant_inst :
    (runSteps VehicleModel.init [⟨some halfSteerCmd, 1 / 60, 0⟩]).vx
      ∈ Set.Icc (-20 : ℝ) 20 := by
  refine (state_bounds_invariant [⟨some halfSteerCmd, 1 / 60, 0⟩] ?_).1.1
  intro i hi
  rw [List.mem_singleton] at hi
  subst hi
  constructor
  · intro c hc
    cases hc
    norm_num [Clamped, halfSteerCmd, abs_of_nonneg]
  · norm_num

/-- C9: if no command is ever accepted, then after every run of physics
steps with positive dt values, vx and wz stay exactly 0 and x, z and yaw
never change from their initial values. -/
theorem no_cmd_stays_at_rest (inputs : List StepInput)
    (h : ∀ i ∈ inputs, i.ctrl = none ∧ 0 < i.dt) :
    (runSteps VehicleModel.init inputs).vx = 0 ∧
    (runSteps VehicleModel.init inputs).wz = 0 ∧
    (runSteps VehicleModel.init inputs).x = 0 ∧
    (runSteps VehicleModel.init inputs).z = 0 ∧
    (runSteps VehicleModel.init inputs).yaw = 0 := by
  have hrest := runSteps_AtRest inputs VehicleModel.init
    ⟨rfl, rfl, rfl, rfl, rfl, rfl⟩ (fun i hi => (h i hi).1)
  exact ⟨hrest.1, hrest.2.1, hrest.2.2.1, hrest.2.2.2.1, hrest.2.2.2.2.1⟩

theorem stepVx_zero (hasCtrl estop : Bool) (brake dt : ℝ) :
    stepVx hasCtrl estop 0 brake 0 dt = 0 := by
  cases hasCtrl <;> cases estop <;>
    norm_num [stepVx, copysign, clamp, MAX_SPEED]

theorem step_estop_locked (m : VehicleModel) (ctrl : Option ControlSnapshot)
    (dt now : ℝ) (hes : m.estop_active = true) (hvx : m.vx = 0) :
    (m.step ctrl dt now).vx = 0 ∧ (m.step ctrl dt now).estop_active = true := by
  cases ctrl <;> simp [VehicleModel.step, hes, hvx, stepVx_zero]

theorem runSteps_estop_locked (inputs : List StepInput) (m : VehicleModel)
    (hes : m.estop_active = true) (hvx : m.vx = 0) :
    (runSteps m inputs).vx = 0 ∧ (runSteps m inputs).estop_active = true := by
  induction inputs generalizing m with
  | nil => exact ⟨hvx, hes⟩
  | cons i rest ih =>
    rw [runSteps_cons]
    have h := step_estop_locked m i.ctrl i.dt i.now hes hvx
    exact ih (m.step i.ctrl i.dt i.now) h.2 h.1

/-- C1 (amended): after estop and no clear_estop, every further tick keeps
vx = 0 and the estop flag set, and every state frame built while the sticky
estop_triggered beacon holds carries status.estop = true. (wz is not locked
to 0: the step slews it toward steer * YAW_RATE_MAX whenever a command with
non-zero steer is in effect — see the counterexample.) -/
theorem estop_locks_vx_and_flag (m : VehicleModel) (inputs : List StepInput)
    (n : ManagerNode) (now : ℝ)
    (hveh : n.vehicle = runSteps m.estop inputs) (htrig : n.estop_triggered = true) :
    n.vehicle.vx = 0 ∧ n.vehicle.estop_active = true ∧
    (n.build_state_payload now).1.vel_vx = 0 ∧
    (n.build_state_payload now).1.status.estop = true := by
  have h := runSteps_estop_locked inputs m.estop rfl rfl
  rw [hveh]
  refine ⟨h.1, h.2, ?_, ?_⟩
  · simp only [ManagerNode.build_state_payload]
    rw [hveh]
    exact h.1
  · simp only [ManagerNode.build_state_payload, build_status]
    exact htrig

/-- C1 witness: the node right after a local trigger_estop builds a frame
with vel.vx = 0 and status.estop = true. -/
theorem estop_locks_vx_and_flag_inst :
    ((ManagerNode.init.trigger_estop).build_state_payload 0).1.vel_vx = 0 ∧
    ((ManagerNode.init.trigger_estop).build_state_payload 0).1.status.estop = true := by
  have h := estop_locks_vx_and_flag VehicleModel.init [] ManagerNode.init.trigger_estop 0
    rfl rfl
  exact ⟨h.2.2.1, h.2.2.2⟩

/-- C1 counterexample: with estop active (and vx, wz zeroed by it), a fresh
command with steer = 1 makes the very next tick move wz to 0.1, not 0. -/
theorem estop_steer_moves_wz :
    VehicleModel.init.estop.estop_active = true ∧
    (VehicleModel.init.estop.step (some steerCmd) (1 / 60) 0).wz ≠ 0 := by
  constructor
  · rfl
  · norm_num [VehicleModel.step, VehicleModel.estop, VehicleModel.init, steerCmd,
      effective, ControlSnapshot.age, CTRL_HOLD_SEC, stepWz, clamp, YAW_RATE_MAX,
      YAW_SLEW, abs_of_nonneg, abs_of_nonpos]

theorem effective_stale (c : ControlSnapshot) (now : ℝ) (hb : c.brake ≤ 1)
    (hage : CTRL_HOLD_SEC + CTRL_DAMP_SEC < c.age now) :
    effective c now = (0, 0, 1) := by
  have hck : CTRL_HOLD_SEC = (0.2 : ℝ) := rfl
  have hcd : CTRL_DAMP_SEC = (1 : ℝ) := by norm_num [CTRL_DAMP_SEC]
  rw [hck, hcd] at hage
  have hhold : ¬ (c.age now ≤ CTRL_HOLD_SEC) := by
    rw [hck]; norm_num; linarith
  have hdecay : clamp ((c.age now - CTRL_HOLD_SEC) / CTRL_DAMP_SEC) 0 1 = 1 := by
    rw [hck, hcd]
    have h1 : (1 : ℝ) < (c.age now - 0.2) / 1 := by norm_num; linarith
    simp only [clamp]
    rw [if_neg (by linarith), if_pos h1]
  simp [effective, hhold, hdecay, max_eq_right hb]

/-- C2 (amended): a command older than CTRL_HOLD + CTRL_DAMP is treated not
as absent but as a fully decayed command — effective throttle 0, steer 0,
brake max(brake, 1) = 1 — so the step equals the step under an explicit
full-brake command; the IDLE_DECEL and ANGULAR_DAMP no-command paths apply
only when no command object exists at all. -/
theorem stale_cmd_is_full_brake (m : VehicleModel) (c : ControlSnapshot) (dt now : ℝ)
    (hb : c.brake ≤ 1) (hage : CTRL_HOLD_SEC + CTRL_DAMP_SEC < c.age now) :
    m.step (some c) dt now
      = m.step (some { c with throttle := 0, steer := 0, brake := 1 }) dt now := by
  have h1 := effective_stale c now hb hage
  have hage' : ControlSnapshot.age { c with throttle := 0, steer := 0, brake := 1 } now
      = c.age now := rfl
  have h2 : effective { c with throttle := 0, steer := 0, brake := 1 } now = (0, 0, 1) :=
    effective_stale _ now le_rfl (by rw [hage']; exact hage)
  simp only [VehicleModel.step, h1, h2, ControlSnapshot.age, Option.isSome_some]

/-- C2 witness: for the concrete 1.3 s old command the equality holds. -/
theorem stale_cmd_is_full_brake_inst :
    cruising.step (some staleCmd) (1 / 60) (13 / 10)
      = cruising.step (some { staleCmd with throttle := 0, steer := 0, brake := 1 })
          (1 / 60) (13 / 10) := by
  apply stale_cmd_is_full_brake
  · norm_num [staleCmd]
  · norm_num [staleCmd, ControlSnapshot.age, CTRL_HOLD_SEC, CTRL_DAMP_SEC]

/-- C2 counterexample: at age 1.3 s the step under the stale command brakes
at BRAKE_DECEL (vx 10 → 146/15) while the command-absent step idles at
COAST_DECEL + IDLE_DECEL (vx 10 → 1193/120), so the two differ. -/
theorem stale_cmd_not_absent :
    (cruising.step (some staleCmd) (1 / 60) (13 / 10)).vx
      ≠ (cruising.step none (1 / 60) (13 / 10)).vx := by
  norm_num [VehicleModel.step, cruising, VehicleModel.init, staleCmd, effective,
    ControlSnapshot.age, CTRL_HOLD_SEC, CTRL_DAMP_SEC, stepVx, copysign, clamp,
    MAX_SPEED, MAX_ACCEL, BRAKE_DECEL, COAST_DECEL, IDLE_DECEL, abs_of_nonneg,
    abs_of_nonpos]

/-- C9 witness: one command-free tick leaves the vehicle exactly at rest. -/
theorem no_cmd_stays_at_rest_inst :
    (runSteps VehicleModel.init [⟨none, 1 / 60, 0⟩]).vx = 0 ∧
    (runSteps VehicleModel.init [⟨none, 1 / 60, 0⟩]).yaw = 0 := by
  have h := no_cmd_stays_at_rest [⟨none, 1 / 60, 0⟩] ?_
  · exact ⟨h.1, h.2.2.2.2⟩
  · intro i hi
    rw [List.mem_singleton] at hi
    subst hi
    exact ⟨rfl, by norm_num⟩

theorem statusCore_cases (estop_active : Bool) (ctrl_age : Option ℝ) :
    (estop_active = true → statusCore estop_active ctrl_age = (false, StatusMsg.estopMsg)) ∧
    (estop_active = false →
      (ctrl_age = none → statusCore estop_active ctrl_age = (false, StatusMsg.waitingCtrl)) ∧
      ∀ a, ctrl_age = some a →
        (CTRL_HOLD_SEC + CTRL_DAMP_SEC < a →
          statusCore estop_active ctrl_age
            = (false, StatusMsg.ctrlTimeout (truncPy (a * 1000)))) ∧
        (¬ CTRL_HOLD_SEC + CTRL_DAMP_SEC < a → (0.4 : ℝ) < a →
          statusCore estop_active ctrl_age
            = (true, StatusMsg.ctrlStale (truncPy (a * 1000)))) ∧
        (¬ CTRL_HOLD_SEC + CTRL_DAMP_SEC < a → ¬ (0.4 : ℝ) < a →
          statusCore estop_active ctrl_age = (true, StatusMsg.empty))) := by
  constructor
  · intro he
    simp [statusCore, he]
  · intro he
    constructor
    · intro hc
      simp [statusCore, he, hc]
    · intro a hc
      refine ⟨fun h1 => ?_, fun h1 h2 => ?_, fun h1 h2 => ?_⟩
      · simp [statusCore, he, hc, h1]
      · simp [statusCore, he, hc, h1, h2]
      · simp [statusCore, he, hc, h1, h2]

/-- C3 (amended): the estop / waiting-ctrl / ctrl-timeout / ctrl-stale rules
are evaluated in order with the first match winning, but the operator
heartbeat rule is applied afterwards as an override: whenever a non-zero
heartbeat timestamp is recorded and its age exceeds 3 s, ok and msg are
overwritten with false / "ui heartbeat lost" — including when estop is
active. -/
theorem status_policy_order (estop_active : Bool) (ctrl_age : Option ℝ)
    (last_hb : Option ℝ) (now_wall : ℝ) (latency : Option ℝ) (estop_triggered : Bool)
    (s : Status)
    (hs : s = build_status estop_active ctrl_age last_hb now_wall latency estop_triggered) :
    ((∃ tm, last_hb = some tm ∧ tm ≠ 0 ∧ 3 < now_wall - tm) →
      s.ok = false ∧ s.msg = StatusMsg.uiHeartbeatLost) ∧
    (¬ (∃ tm, last_hb = some tm ∧ tm ≠ 0 ∧ 3 < now_wall - tm) →
      (estop_active = true → s.ok = false ∧ s.msg = StatusMsg.estopMsg) ∧
      (estop_active = false →
        (ctrl_age = none → s.ok = false ∧ s.msg = StatusMsg.waitingCtrl) ∧
        ∀ a, ctrl_age = some a →
          (CTRL_HOLD_SEC + CTRL_DAMP_SEC < a →
            s.ok = false ∧ s.msg = StatusMsg.ctrlTimeout (truncPy (a * 1000))) ∧
          (¬ CTRL_HOLD_SEC + CTRL_DAMP_SEC < a → (0.4 : ℝ) < a →
            s.ok = true ∧ s.msg = StatusMsg.ctrlStale (truncPy (a * 1000))) ∧
          (¬ CTRL_HOLD_SEC + CTRL_DAMP_SEC < a → ¬ (0.4 : ℝ) < a →
            s.ok = true ∧ s.msg = StatusMsg.empty))) := by
  subst hs
  have core := statusCore_cases estop_active ctrl_age
  have hcase :
      build_status estop_active ctrl_age last_hb now_wall latency estop_triggered
          = { ok := false, msg := StatusMsg.uiHeartbeatLost,
              hb_age := some (now_wall - last_hb.getD 0), ctrl_latency_ms := latency,
              estop := estop_triggered }
        ∧ (∃ tm, last_hb = some tm ∧ tm ≠ 0 ∧ 3 < now_wall - tm)
      ∨ (build_status estop_active ctrl_age last_hb now_wall latency estop_triggered).ok
            = (statusCore estop_active ctrl_age).1
        ∧ (build_status estop_active ctrl_age last_hb now_wall latency estop_triggered).msg
            = (statusCore estop_active ctrl_age).2
        ∧ ¬ (∃ tm, last_hb = some tm ∧ tm ≠ 0 ∧ 3 < now_wall - tm) := by
    cases last_hb with
    | none =>
      right
      refine ⟨by simp [build_status], by simp [build_status], ?_⟩
      rintro ⟨tm, htm, -⟩
      exact Option.noConfusion htm
    | some tm =>
      by_cases htm : tm = 0
      · right
        refine ⟨by simp [build_status, htm], by simp [build_status, htm], ?_⟩
        rintro ⟨tm2, htm2, hne2, -⟩
        rw [Option.some_inj] at htm2
        exact hne2 (htm2 ▸ htm)
      · by_cases hage : 3 < now_wall - tm
        · left
          refine ⟨?_, tm, rfl, htm, hage⟩
          simp [build_status, htm, hage]
        · right
          refine ⟨by simp [build_status, htm, hage], by simp [build_status, htm, hage], ?_⟩
          rintro ⟨tm2, htm2, -, hage2⟩
          rw [Option.some_inj] at htm2
          exact hage (htm2 ▸ hage2)
  rcases hcase with ⟨heq, hex⟩ | ⟨hok, hmsg, hnex⟩
  · constructor
    · intro _
      rw [heq]
      exact ⟨rfl, rfl⟩
    · intro hno
      exact absurd hex hno
  · constructor
    · intro hex
      exact absurd hex hnex
    · intro _
      rw [hok, hmsg]
      refine ⟨?_, ?_⟩
      · intro he
        rw [(core.1 he)]
        exact ⟨rfl, rfl⟩
      · intro he
        refine ⟨?_, ?_⟩
        · intro hc
          rw [((core.2 he).1 hc)]
          exact ⟨rfl, rfl⟩
        · intro a hc
          refine ⟨fun h1 => ?_, fun h1 h2 => ?_, fun h1 h2 => ?_⟩
          · rw [(((core.2 he).2 a hc).1 h1)]
            exact ⟨rfl, rfl⟩
          · rw [(((core.2 he).2 a hc).2.1 h1 h2)]
            exact ⟨rfl, rfl⟩
          · rw [(((core.2 he).2 a hc).2.2 h1 h2)]
            exact ⟨rfl, rfl⟩

/-- Every ok-result of _handle_ctrl is one of: seq-gate drop (node
unchanged), replay drop (drop counter bumped), or acceptance of a command
with a strictly larger seq than any stored one. -/
theorem handle_ctrl_ok_cases (n : ManagerNode) (msg : Json) (t1 t2 : ℝ)
    (n' : ManagerNode) (hok : n.handle_ctrl msg t1 t2 = .ok n') :
    (∃ sj, msg.getOpt "seq" = .ok sj ∧ sj.bind pyInt? = none ∧ n' = n) ∨
    ∃ sj seq cmdJ throttle steer brake modeJ tJ,
      msg.getOpt "seq" = .ok sj ∧ sj.bind pyInt? = some seq ∧
      msg.getOpt "cmd" = .ok cmdJ ∧
      cmdNum (cmdOf cmdJ) "throttle" (-1) 1 = .ok throttle ∧
      cmdNum (cmdOf cmdJ) "steer" (-1) 1 = .ok steer ∧
      cmdNum (cmdOf cmdJ) "brake" 0 1 = .ok brake ∧
      (cmdOf cmdJ).getD "mode" (Json.str "arcade") = .ok modeJ ∧
      msg.getOpt "t" = .ok tJ ∧
      ((∃ c, n.last_ctrl = some c ∧ seq ≤ c.seq ∧
          n' = { n with ctrl_drop_count := n.ctrl_drop_count + 1 }) ∨
       ((∀ c, n.last_ctrl = some c → c.seq < seq) ∧
        n' = n.acceptCtrl seq throttle steer brake (pyStr modeJ) t1 t2 (tJ.bind pyNum?))) := by
  unfold ManagerNode.handle_ctrl at hok
  rcases hseq : msg.getOpt "seq" with e | sj
  · rw [hseq, exError_bind] at hok
    exact Except.noConfusion hok
  rw [hseq, exOk_bind] at hok
  rcases hint : sj.bind pyInt? with _ | seq
  · simp only [hint] at hok
    rw [Except.ok.injEq] at hok
    exact Or.inl ⟨sj, rfl, hint, hok.symm⟩
  simp only [hint] at hok
  rcases hcmd : msg.getOpt "cmd" with e | cmdJ
  · rw [hcmd, exError_bind] at hok
    exact Except.noConfusion hok
  rw [hcmd, exOk_bind] at hok
  rcases hthr : cmdNum (cmdOf cmdJ) "throttle" (-1) 1 with e | throttle
  · rw [hthr, exError_bind] at hok
    exact Except.noConfusion hok
  rw [hthr, exOk_bind] at hok
  rcases hst : cmdNum (cmdOf cmdJ) "steer" (-1) 1 with e | steer
  · rw [hst, exError_bind] at hok
    exact Except.noConfusion hok
  rw [hst, exOk_bind] at hok
  rcases hbr : cmdNum (cmdOf cmdJ) "brake" 0 1 with e | brake
  · rw [hbr, exError_bind] at hok
    exact Except.noConfusion hok
  rw [hbr, exOk_bind] at hok
  rcases hmode : (cmdOf cmdJ).getD "mode" (Json.str "arcade") with e | modeJ
  · rw [hmode, exError_bind] at hok
    exact Except.noConfusion hok
  rw [hmode, exOk_bind] at hok
  rcases ht : msg.getOpt "t" with e | tJ
  · rw [ht, exError_bind] at hok
    exact Except.noConfusion hok
  rw [ht, exOk_bind] at hok
  rcases hlast : n.last_ctrl with _ | c
  · simp only [hlast] at hok
    rw [Except.ok.injEq] at hok
    refine Or.inr ⟨sj, seq, cmdJ, throttle, steer, brake, modeJ, tJ,
      rfl, hint, rfl, hthr, hst, hbr, hmode, rfl, Or.inr ⟨?_, hok.symm⟩⟩
    intro c2 hc2
    exact Option.noConfusion hc2
  · simp only [hlast] at hok
    by_cases hle : seq ≤ c.seq
    · rw [if_pos hle, Except.ok.injEq] at hok
      exact Or.inr ⟨sj, seq, cmdJ, throttle, steer, brake, modeJ, tJ,
        rfl, hint, rfl, hthr, hst, hbr, hmode, rfl, Or.inl ⟨c, rfl, hle, hok.symm⟩⟩
    · rw [if_neg hle, Except.ok.injEq] at hok
      refine Or.inr ⟨sj, seq, cmdJ, throttle, steer, brake, modeJ, tJ,
        rfl, hint, rfl, hthr, hst, hbr, hmode, rfl, Or.inr ⟨?_, hok.symm⟩⟩
      intro c2 hc2
      rw [Option.some_inj] at hc2
      rw [← hc2]
      exact lt_of_not_le hle

theorem cmdNum_ok_mem {cmd : Json} {key : String} {low high x : ℝ} (hlh : low ≤ high)
    (h : cmdNum cmd key low high = .ok x) : x ∈ Set.Icc low high := by
  unfold cmdNum at h
  rcases hd : cmd.getD key (Json.num 0) with e | v
  · rw [hd, exError_bind] at h
    exact Except.noConfusion h
  rw [hd, exOk_bind] at h
  rcases hf : pyFloat v with e | y
  · rw [hf, exError_bind] at h
    exact Except.noConfusion h
  rw [hf, exOk_bind, Except.ok.injEq] at h
  rw [← h]
  exact clamp_mem_Icc y hlh

theorem cmdNum_missing {fs : List (String × Json)} {key : String} {low high : ℝ}
    (hmiss : lookupField fs key = none) (hl : low ≤ 0) (hh : 0 ≤ high) :
    cmdNum (Json.obj fs) key low high = .ok 0 := by
  have h1 : (Json.obj fs).getD key (Json.num 0) = .ok (Json.num 0) := by
    simp only [Json.getD, hmiss, Option.getD_none]
  unfold cmdNum
  rw [h1, exOk_bind]
  simp only [pyFloat, exOk_bind, Except.ok.injEq]
  rw [Rat.cast_zero, clamp_eq_of_mem hl hh]

theorem cmdNum_cmdOf_obj_missing {fs : List (String × Json)} {key : String}
    {low high : ℝ} (hmiss : lookupField fs key = none) (hl : low ≤ 0) (hh : 0 ≤ high) :
    cmdNum (cmdOf (some (Json.obj fs))) key low high = .ok 0 := by
  simp only [cmdOf, pythonTruthy]
  split_ifs with h
  · exact cmdNum_missing hmiss hl hh
  · exact cmdNum_missing (show lookupField [] key = none from rfl) hl hh

/-- C4 (amended): CommandIntake accepts a ctrl frame only if its seq field
is present and is an integer; a frame whose seq is absent or not an integer
is dropped, leaving the node — in particular the latest-command slot —
unchanged. The sign of seq is not checked: a negative integer seq passes
the gate (see the counterexample). -/
theorem seq_gate_int_only (n : ManagerNode) (msg : Json) (now_mono now_wall : ℝ)
    (sj : Option Json) (h1 : msg.getOpt "seq" = .ok sj) (h2 : sj.bind pyInt? = none) :
    n.handle_ctrl msg now_mono now_wall = .ok n := by
  unfold ManagerNode.handle_ctrl
  rw [h1, exOk_bind]
  simp only [h2]

/-- C4 witness: a frame whose seq is the string "x" is dropped with the node
unchanged. -/
theorem seq_gate_int_only_inst :
    ManagerNode.init.handle_ctrl ctrlMsgStrSeq 0 0 = .ok ManagerNode.init :=
  seq_gate_int_only ManagerNode.init ctrlMsgStrSeq 0 0 (some (Json.str "x")) rfl rfl

/-- C4 counterexample: the frame with seq = -1 is accepted into the empty
slot, so a negative integer seq is not dropped. -/
theorem negative_seq_accepted :
    ManagerNode.init.last_ctrl = none ∧
    (ManagerNode.init.handle_ctrl ctrlMsgNegSeq 0 0).map
        (fun nd => nd.last_ctrl.map ControlSnapshot.seq)
      = .ok (some (-1)) := by
  refine ⟨rfl, ?_⟩
  have h : ManagerNode.init.handle_ctrl ctrlMsgNegSeq 0 0
      = .ok (ManagerNode.init.acceptCtrl (-1) 0 0 0 "arcade" 0 0 none) := by
    simp +decide [ManagerNode.handle_ctrl, ctrlMsgNegSeq, Json.getOpt, lookupField,
      pyInt?, pythonTruthy, cmdOf, cmdNum, Json.getD, pyFloat, pyStr, exOk_bind,
      exError_bind, ManagerNode.init, ManagerNode.acceptCtrl, clamp]
    norm_num
  rw [h]
  rfl

/-- C5: with a command already stored, a completed ctrl frame whose integer
seq is ≤ the stored seq leaves the node exactly drop-counted by one (slot
and recv count unchanged); and whenever the slot content changes, the new
command's seq is strictly greater than the stored one — accepted seqs are
strictly increasing. -/
theorem replay_drop_monotonic (n : ManagerNode) (msg : Json) (now_mono now_wall : ℝ)
    (c : ControlSnapshot) (n' : ManagerNode)
    (hlast : n.last_ctrl = some c)
    (hok : n.handle_ctrl msg now_mono now_wall = .ok n') :
    ((∃ sj s, msg.getOpt "seq" = .ok (some sj) ∧ pyInt? sj = some s ∧ s ≤ c.seq) →
      n' = { n with ctrl_drop_count := n.ctrl_drop_count + 1 }) ∧
    ∀ c', n'.last_ctrl = some c' → c' = c ∨ c.seq < c'.seq := by
  rcases handle_ctrl_ok_cases n msg now_mono now_wall n' hok with
    ⟨sj, hget, hnone, hn⟩ |
    ⟨sj, seq, cmdJ, th, st, br, mo, tJ, hget, hint, -, -, -, -, -, -, hfin⟩
  · subst hn
    constructor
    · rintro ⟨sj2, s, hget2, hint2, -⟩
      rw [hget, Except.ok.injEq] at hget2
      rw [hget2, Option.some_bind, hint2] at hnone
      exact Option.noConfusion hnone
    · intro c' hc'
      rw [hlast, Option.some_inj] at hc'
      exact Or.inl hc'.symm
  · rcases hfin with ⟨c2, hlast2, hle2, hn⟩ | ⟨hgt, hn⟩
    · subst hn
      constructor
      · intro _
        rfl
      · intro c' hc'
        have hlc : ({ n with ctrl_drop_count := n.ctrl_drop_count + 1 } :
            ManagerNode).last_ctrl = n.last_ctrl := rfl
        rw [hlc, hlast, Option.some_inj] at hc'
        exact Or.inl hc'.symm
    · constructor
      · rintro ⟨sj2, s, hget2, hint2, hsle⟩
        rw [hget, Except.ok.injEq] at hget2
        rw [hget2, Option.some_bind, hint2, Option.some_inj] at hint
        have hcs := hgt c hlast
        rw [← hint] at hcs
        exact absurd hcs (not_lt.mpr hsle)
      · intro c' hc'
        subst hn
        have hlc : (n.acceptCtrl seq th st br (pyStr mo) now_mono now_wall
            (tJ.bind pyNum?)).last_ctrl
            = some { seq := seq, throttle := th, steer := st, brake := br,
                     mode := pyStr mo, received_at := now_mono,
                     client_timestamp_ms := (tJ.bind pyNum?).map truncPy } := rfl
        rw [hlc, Option.some_inj] at hc'
        right
        rw [← hc']
        exact hgt c hlast

/-- C5 witness: a seq 3 frame against a stored seq 5 command is dropped with
exactly one drop counted. -/
theorem replay_drop_monotonic_inst :
    nodeSeq5.handle_ctrl ctrlMsgSeq3 0 0
      = .ok { nodeSeq5 with ctrl_drop_count := nodeSeq5.ctrl_drop_count + 1 } := by
  have hok : nodeSeq5.handle_ctrl ctrlMsgSeq3 0 0
      = .ok { nodeSeq5 with ctrl_drop_count := 1 } := by
    simp +decide [ManagerNode.handle_ctrl, nodeSeq5, cmdSeq5, ctrlMsgSeq3, Json.getOpt,
      lookupField, pyInt?, pythonTruthy, cmdOf, cmdNum, Json.getD, pyFloat, pyStr,
      exOk_bind, exError_bind, ManagerNode.init, clamp]
  have h := (replay_drop_monotonic nodeSeq5 ctrlMsgSeq3 0 0 cmdSeq5 _ rfl hok).1
    ⟨Json.int 3, 3, rfl, rfl, by norm_num [cmdSeq5]⟩
  rw [hok, h]

/-- C6 (the code at the failing input): a ctrl frame whose cmd is the truthy
string "hi" makes the message handler raise AttributeError (cmd.get on a
non-dict) instead of discarding the frame; only json.JSONDecodeError is
caught, so the exception escapes _on_message. -/
theorem bad_cmd_raises :
    ManagerNode.init.on_message "#ctrl" (some ctrlMsgBadCmd) 0 0
      = .error PyError.attributeError := by
  simp +decide [ManagerNode.on_message, ManagerNode.handle_ctrl, ManagerNode.init,
    ctrlMsgBadCmd, Json.getOpt, lookupField, pyInt?, pythonTruthy, cmdOf, cmdNum,
    Json.getD, pyFloat, pyStr, exOk_bind, exError_bind]

/-- C7: every command stored by an accepted ctrl frame has throttle and
steer in [-1, 1] and brake in [0, 1] (clamped before use), and a numeric
field missing from the cmd object — or the whole cmd object missing —
defaults to 0. -/
theorem accepted_cmd_clamped_defaults (n : ManagerNode) (msg : Json) (t1 t2 : ℝ)
    (n' : ManagerNode) (c : ControlSnapshot)
    (hok : n.handle_ctrl msg t1 t2 = .ok n') (hc : n'.last_ctrl = some c) :
    n.last_ctrl = some c ∨
    ((c.throttle ∈ Set.Icc (-1 : ℝ) 1 ∧ c.steer ∈ Set.Icc (-1 : ℝ) 1 ∧
      c.brake ∈ Set.Icc (0 : ℝ) 1) ∧
     (msg.getOpt "cmd" = .ok none → c.throttle = 0 ∧ c.steer = 0 ∧ c.brake = 0) ∧
     ∀ fs, msg.getOpt "cmd" = .ok (some (Json.obj fs)) →
        (lookupField fs "throttle" = none → c.throttle = 0) ∧
        (lookupField fs "steer" = none → c.steer = 0) ∧
        (lookupField fs "brake" = none → c.brake = 0)) := by
  rcases handle_ctrl_ok_cases n msg t1 t2 n' hok with
    ⟨sj, -, -, hn⟩ |
    ⟨sj, seq, cmdJ, th, st, br, mo, tJ, -, -, hcmd, hthr, hst2, hbr, -, -, hfin⟩
  · subst hn
    exact Or.inl hc
  · rcases hfin with ⟨c2, -, -, hn⟩ | ⟨-, hn⟩
    · subst hn
      left
      have hlc : ({ n with ctrl_drop_count := n.ctrl_drop_count + 1 } :
          ManagerNode).last_ctrl = n.last_ctrl := rfl
      rw [hlc] at hc
      exact hc
    · subst hn
      have hlc : (n.acceptCtrl seq th st br (pyStr mo) t1 t2 (tJ.bind pyNum?)).last_ctrl
          = some { seq := seq, throttle := th, steer := st, brake := br,
                   mode := pyStr mo, received_at := t1,
                   client_timestamp_ms := (tJ.bind pyNum?).map truncPy } := rfl
      rw [hlc, Option.some_inj] at hc
      subst hc
      right
      refine ⟨⟨cmdNum_ok_mem (by norm_num) hthr, cmdNum_ok_mem (by norm_num) hst2,
        cmdNum_ok_mem (by norm_num) hbr⟩, ?_, ?_⟩
      · intro habs
        rw [habs, Except.ok.injEq] at hcmd
        rw [← hcmd] at hthr hst2 hbr
        have h1 := @cmdNum_missing [] "throttle" (-1) 1 rfl (by norm_num) (by norm_num)
        have h2 := @cmdNum_missing [] "steer" (-1) 1 rfl (by norm_num) (by norm_num)
        have h3 := @cmdNum_missing [] "brake" 0 1 rfl (by norm_num) (by norm_num)
        rw [show cmdOf none = Json.obj [] from rfl] at hthr hst2 hbr
        rw [hthr, Except.ok.injEq] at h1
        rw [hst2, Except.ok.injEq] at h2
        rw [hbr, Except.ok.injEq] at h3
        exact ⟨h1, h2, h3⟩
      · intro fs hfs
        rw [hfs, Except.ok.injEq] at hcmd
        rw [← hcmd] at hthr hst2 hbr
        refine ⟨fun hm => ?_, fun hm => ?_, fun hm => ?_⟩
        · have h1 := @cmdNum_cmdOf_obj_missing fs "throttle" (-1) 1 hm
            (by norm_num) (by norm_num)
          rw [hthr, Except.ok.injEq] at h1
          exact h1
        · have h1 := @cmdNum_cmdOf_obj_missing fs "steer" (-1) 1 hm
            (by norm_num) (by norm_num)
          rw [hst2, Except.ok.injEq] at h1
          exact h1
        · have h1 := @cmdNum_cmdOf_obj_missing fs "brake" 0 1 hm
            (by norm_num) (by norm_num)
          rw [hbr, Except.ok.injEq] at h1
          exact h1

/-- C7 witness: the accepted frame with out-of-range throttle 5 stores the
clamped snapshot. -/
theorem accepted_cmd_clamped_defaults_inst :
    bigSnapshot.throttle ∈ Set.Icc (-1 : ℝ) 1 ∧
    bigSnapshot.steer ∈ Set.Icc (-1 : ℝ) 1 ∧
    bigSnapshot.brake ∈ Set.Icc (0 : ℝ) 1 := by
  have hok : ManagerNode.init.handle_ctrl ctrlMsgBigThrottle 0 0
      = .ok (ManagerNode.init.acceptCtrl 7 1 0 0 "arcade" 0 0 none) := by
    simp +decide [ManagerNode.handle_ctrl, ctrlMsgBigThrottle, Json.getOpt, lookupField,
      pyInt?, pythonTruthy, cmdOf, cmdNum, Json.getD, pyFloat, pyStr, exOk_bind,
      exError_bind, ManagerNode.init, ManagerNode.acceptCtrl, clamp]
    norm_num
  have hc : (ManagerNode.init.acceptCtrl 7 1 0 0 "arcade" 0 0 none).last_ctrl
      = some bigSnapshot := rfl
  rcases accepted_cmd_clamped_defaults ManagerNode.init ctrlMsgBigThrottle 0 0 _
      bigSnapshot hok hc with hl | hr
  · exact Option.noConfusion hl
  · exact hr.1

/-- C3 witness: with no heartbeat recorded and estop active, the frame says
"estop". -/
theorem status_policy_order_inst :
    (build_status true none none 0 none true).ok = false ∧
    (build_status true none none 0 none true).msg = StatusMsg.estopMsg := by
  have h := status_policy_order true none none 0 none true _ rfl
  refine (h.2 ?_ ).1 rfl
  rintro ⟨tm, htm, -⟩
  exact Option.noConfusion htm

/-- C3 counterexample: with estop active and a 4 s old operator heartbeat,
the frame's msg is "ui heartbeat lost", not "estop" as the claimed
first-match order would give. -/
theorem hb_lost_overrides_estop :
    (build_status true none (some 1) 5 none true).msg = StatusMsg.uiHeartbeatLost ∧
    (build_status true none (some 1) 5 none true).msg ≠ StatusMsg.estopMsg := by
  have h : (build_status true none (some 1) 5 none true).msg
      = StatusMsg.uiHeartbeatLost := by
    norm_num [build_status]
  rw [h]
  exact ⟨rfl, fun hc => StatusMsg.noConfusion hc⟩

end Manager
